import Mathlib

/-!
# The rgw operator (`pkg/operator/rgw/rgw.go`)

A shallow embedding of the provisioning routine of the rook rgw operator:
`New`, `Cluster.Start`, `Cluster.createKeyring`, `Cluster.makeDeployment`,
`Cluster.rgwContainer`, `Cluster.startService` and `getLabels`.

Conventions of the embedding.

* A Go `error` is a `GoError`: its `Error()` text and the Kubernetes status
  reason that `errors.IsNotFound` and `errors.IsAlreadyExists` inspect. A Go
  function returning `error` returns `Option GoError` here (`none` is `nil`).
* `fmt.Errorf("<text> %+v", err)` is `Errorf "<text> " err`: a fresh error (no
  status reason) whose text is the given text followed by `err.Error()`.
* The remote collaborators are state machines handed in as records of
  functions: `Clientset σ` for the Kubernetes client, `CephAdmin κ` for the
  administrative connection to the storage cluster. Every call the code makes on
  them is appended to `World.log`, in the order in which it is issued.
* Constants and helpers that `rgw.go` imports from other packages (`k8sutil`,
  `cephmgr/mon`, `cephmgr/rgw`, `operator/mon`) are the fields of `Deps`.
* Go maps written as literals are association lists in literal order.
* Calls to the package logger are not modelled.
-/

namespace Rgw

/-! ## Errors -/

/-- The status reason carried by an error of the Kubernetes client, as far as
`rgw.go` tells reasons apart. -/
inductive StatusReason where
  | notFound
  | alreadyExists
  | unknown
deriving DecidableEq, Repr

/-- A Go `error` value. -/
structure GoError where
  msg : String
  reason : StatusReason
deriving DecidableEq, Repr

/-- Go `errors.IsNotFound`. -/
def IsNotFound (err : GoError) : Bool :=
  err.reason == StatusReason.notFound

/-- Go `errors.IsAlreadyExists`. -/
def IsAlreadyExists (err : GoError) : Bool :=
  err.reason == StatusReason.alreadyExists

/-- Go `fmt.Errorf(text + "%+v", err)`. -/
def Errorf (text : String) (err : GoError) : GoError :=
  { msg := text ++ err.msg, reason := StatusReason.unknown }

/-- Go `fmt.Errorf(text)` without arguments. -/
def ErrorfPlain (text : String) : GoError :=
  { msg := text, reason := StatusReason.unknown }

/-! ## Kubernetes objects (the fields `rgw.go` sets) -/

structure ObjectMeta where
  Name : String := ""
  Namespace : String := ""
  Labels : List (String × String) := []
  Annotations : List (String × String) := []
deriving DecidableEq, Repr

structure Secret where
  ObjectMeta : ObjectMeta := {}
  StringData : List (String × String) := []
  /-- The field `Type`. -/
  Type_ : String := ""
deriving DecidableEq, Repr

/-- Go `intstr.IntOrString`. -/
inductive IntOrString where
  | int (v : Int)
  | str (v : String)
deriving DecidableEq, Repr

/-- Go `intstr.FromInt`. -/
def FromInt (v : Int) : IntOrString := IntOrString.int v

structure ServicePort where
  Name : String := ""
  Port : Int := 0
  TargetPort : IntOrString := IntOrString.int 0
  Protocol : String := ""
deriving DecidableEq, Repr

structure ServiceSpec where
  Ports : List ServicePort := []
  Selector : List (String × String) := []
deriving DecidableEq, Repr

structure Service where
  ObjectMeta : ObjectMeta := {}
  Spec : ServiceSpec := {}
deriving DecidableEq, Repr

structure SecretKeySelector where
  Name : String := ""
  Key : String := ""
deriving DecidableEq, Repr

structure EnvVarSource where
  SecretKeyRef : Option SecretKeySelector := none
deriving DecidableEq, Repr

structure EnvVar where
  Name : String := ""
  Value : String := ""
  ValueFrom : Option EnvVarSource := none
deriving DecidableEq, Repr

structure VolumeMount where
  Name : String := ""
  MountPath : String := ""
deriving DecidableEq, Repr

structure Container where
  Command : List String := []
  Name : String := ""
  Image : String := ""
  VolumeMounts : List VolumeMount := []
  Env : List EnvVar := []
deriving DecidableEq, Repr

/-- Go `v1.VolumeSource`; `EmptyDir` is `true` when the pointer is set. -/
structure VolumeSource where
  EmptyDir : Bool := false
deriving DecidableEq, Repr

structure Volume where
  Name : String := ""
  VolumeSource : VolumeSource := {}
deriving DecidableEq, Repr

structure PodSpec where
  Containers : List Container := []
  RestartPolicy : String := ""
  Volumes : List Volume := []
deriving DecidableEq, Repr

structure PodTemplateSpec where
  ObjectMeta : ObjectMeta := {}
  Spec : PodSpec := {}
deriving DecidableEq, Repr

structure DeploymentSpec where
  Template : PodTemplateSpec := {}
  Replicas : Option Int := none
deriving DecidableEq, Repr

structure Deployment where
  ObjectMeta : ObjectMeta := {}
  Spec : DeploymentSpec := {}
deriving DecidableEq, Repr

/-! ## Storage-cluster side -/

/-- Go `mon.ClusterInfo`, as far as `rgw.go` reads it: the cluster name and the
monitors collection, of which only the length is inspected here and which is
handed whole to `FlattenMonEndpoints`. -/
structure ClusterInfo where
  Name : String
  Monitors : List String
deriving DecidableEq, Repr

/-- Go `clusterd.Context`, as far as `rgw.go` fills it. -/
structure Context where
  ConfigDir : String
deriving DecidableEq, Repr

/-- Go `client.ConnectionFactory`: a handle, never inspected by `rgw.go`. -/
abbrev ConnectionFactory := Nat

/-- An open administrative connection: a handle. -/
abbrev Conn := Nat

/-! ## Imported constants and helpers -/

/-- What `rgw.go` imports from the packages `k8sutil`, `cephmgr/mon`,
`cephmgr/rgw` and `operator/mon`. -/
structure Deps where
  /-- Go `k8sutil.DataDir` -/
  DataDir : String
  /-- Go `k8sutil.DataDirVolume` -/
  DataDirVolume : String
  /-- Go `k8sutil.RookType` -/
  RookType : String
  /-- Go `k8sutil.AppAttr` -/
  AppAttr : String
  /-- Go `k8sutil.ClusterAttr` -/
  ClusterAttr : String
  /-- Go `cephrgw.RGWPort` -/
  RGWPort : Int
  /-- Go `cephrgw.DNSName` -/
  DNSName : String
  /-- Go `mon.FlattenMonEndpoints` -/
  FlattenMonEndpoints : List String → String
  /-- Go `k8sutil.MakeRookImage` -/
  MakeRookImage : String → String
  /-- Go `k8smon.MonSecretEnvVar()` -/
  MonSecretEnvVar : EnvVar
  /-- Go `k8smon.AdminSecretEnvVar()` -/
  AdminSecretEnvVar : EnvVar

/-! ## Remote collaborators and the log of calls -/

/-- A call issued on a remote collaborator. The Kubernetes client also offers
update and delete calls; they are part of the alphabet although `rgw.go` never
issues one. -/
inductive Op where
  | secretGet (ns name : String)
  | secretCreate (ns : String) (s : Secret)
  | secretUpdate (ns : String) (s : Secret)
  | secretDelete (ns name : String)
  | serviceCreate (ns : String) (s : Service)
  | serviceDelete (ns name : String)
  | deploymentCreate (ns : String) (d : Deployment)
  | deploymentDelete (ns name : String)
  | connect (ctx : Context) (factory : ConnectionFactory) (cluster : Option ClusterInfo)
  | createKeyring (conn : Conn)
  | shutdown (conn : Conn)
deriving DecidableEq, Repr

/-- The part of `kubernetes.Interface` that `rgw.go` calls, over a client
state `σ`. `secretGet ns name` is `CoreV1().Secrets(ns).Get(name)`, and so on. -/
structure Clientset (σ : Type) where
  secretGet : String → String → σ → Except GoError Secret × σ
  secretCreate : String → Secret → σ → Except GoError Secret × σ
  serviceCreate : String → Service → σ → Except GoError Service × σ
  deploymentCreate : String → Deployment → σ → Except GoError Deployment × σ

/-- The administrative session of the storage cluster, over a state `κ`:
`mon.ConnectToClusterAsAdmin`, `cephrgw.CreateKeyring` and `Shutdown`. -/
structure CephAdmin (κ : Type) where
  connect : Context → ConnectionFactory → Option ClusterInfo → κ → Except GoError Conn × κ
  createKeyring : Conn → κ → Except GoError String × κ
  shutdown : Conn → κ → κ

/-- The state of everything outside the routine, and the calls issued so far. -/
structure World (σ κ : Type) where
  kube : σ
  ceph : κ
  log : List Op

section Calls
variable {σ κ : Type}

def World.secretGet (cs : Clientset σ) (ns name : String) (w : World σ κ) :
    Except GoError Secret × World σ κ :=
  let r := cs.secretGet ns name w.kube
  (r.1, { w with kube := r.2, log := w.log ++ [Op.secretGet ns name] })

def World.secretCreate (cs : Clientset σ) (ns : String) (s : Secret) (w : World σ κ) :
    Except GoError Secret × World σ κ :=
  let r := cs.secretCreate ns s w.kube
  (r.1, { w with kube := r.2, log := w.log ++ [Op.secretCreate ns s] })

def World.serviceCreate (cs : Clientset σ) (ns : String) (s : Service) (w : World σ κ) :
    Except GoError Service × World σ κ :=
  let r := cs.serviceCreate ns s w.kube
  (r.1, { w with kube := r.2, log := w.log ++ [Op.serviceCreate ns s] })

def World.deploymentCreate (cs : Clientset σ) (ns : String) (d : Deployment) (w : World σ κ) :
    Except GoError Deployment × World σ κ :=
  let r := cs.deploymentCreate ns d w.kube
  (r.1, { w with kube := r.2, log := w.log ++ [Op.deploymentCreate ns d] })

def World.connect (ca : CephAdmin κ) (ctx : Context) (f : ConnectionFactory)
    (cluster : Option ClusterInfo) (w : World σ κ) : Except GoError Conn × World σ κ :=
  let r := ca.connect ctx f cluster w.ceph
  (r.1, { w with ceph := r.2, log := w.log ++ [Op.connect ctx f cluster] })

def World.createKeyring (ca : CephAdmin κ) (conn : Conn) (w : World σ κ) :
    Except GoError String × World σ κ :=
  let r := ca.createKeyring conn w.ceph
  (r.1, { w with ceph := r.2, log := w.log ++ [Op.createKeyring conn] })

def World.shutdown (ca : CephAdmin κ) (conn : Conn) (w : World σ κ) : World σ κ :=
  { w with ceph := ca.shutdown conn w.ceph, log := w.log ++ [Op.shutdown conn] }

end Calls

/-! ## The code of `rgw.go` -/

def appName : String := "rgw"

def keyringName : String := "keyring"

structure Cluster where
  Namespace : String
  Version : String
  Replicas : Int
  factory : ConnectionFactory
  dataDir : String
deriving DecidableEq, Repr

def New (d : Deps) (ns version : String) (factory : ConnectionFactory) : Cluster :=
  { Namespace := ns,
    Version := version,
    Replicas := 2,
    factory := factory,
    dataDir := d.DataDir }

def getLabels (d : Deps) (clusterName : String) : List (String × String) :=
  [(d.AppAttr, appName), (d.ClusterAttr, clusterName)]

/-- The text built by the `fmt.Sprintf` of `rgwContainer`; `%d` prints the port
in decimal. -/
def rgwCommand (d : Deps) (cluster : ClusterInfo) : String :=
  "/usr/bin/rookd rgw --data-dir=" ++ d.DataDir
    ++ " --mon-endpoints=" ++ d.FlattenMonEndpoints cluster.Monitors
    ++ " --cluster-name=" ++ cluster.Name
    ++ " --rgw-port=" ++ toString d.RGWPort
    ++ " --rgw-host=" ++ d.DNSName

def rgwContainer (d : Deps) (c : Cluster) (cluster : ClusterInfo) : Container :=
  let command := rgwCommand d cluster
  { Command := ["/bin/sh", "-c", "sleep 5; " ++ command],
    Name := appName,
    Image := d.MakeRookImage c.Version,
    VolumeMounts := [{ Name := d.DataDirVolume, MountPath := d.DataDir }],
    Env := [
      { Name := "ROOKD_RGW_KEYRING",
        ValueFrom := some { SecretKeyRef := some { Name := appName, Key := keyringName } } },
      d.MonSecretEnvVar,
      d.AdminSecretEnvVar ] }

def makeDeployment (d : Deps) (c : Cluster) (cluster : ClusterInfo) : Deployment :=
  let podSpec : PodTemplateSpec :=
    { ObjectMeta :=
        { Name := "rook-rgw",
          Labels := getLabels d cluster.Name,
          Annotations := [] },
      Spec :=
        { Containers := [rgwContainer d c cluster],
          -- v1.RestartPolicyAlways
          RestartPolicy := "Always",
          Volumes := [{ Name := d.DataDirVolume, VolumeSource := { EmptyDir := true } }] } }
  { ObjectMeta := { Name := appName, Namespace := c.Namespace },
    Spec := { Template := podSpec, Replicas := some c.Replicas } }

/-- The secret built in `createKeyring` from the minted keyring. -/
def keyringSecret (d : Deps) (c : Cluster) (keyring : String) : Secret :=
  { ObjectMeta := { Name := appName, Namespace := c.Namespace },
    StringData := [(keyringName, keyring)],
    Type_ := d.RookType }

/-- The service built in `startService`. -/
def rgwService (d : Deps) (c : Cluster) (clusterInfo : ClusterInfo) : Service :=
  let labels := getLabels d clusterInfo.Name
  { ObjectMeta := { Name := appName, Namespace := c.Namespace, Labels := labels },
    Spec :=
      { Ports := [
          { Name := appName,
            Port := d.RGWPort,
            TargetPort := FromInt d.RGWPort,
            -- v1.ProtocolTCP
            Protocol := "TCP" } ],
        Selector := labels } }

section Code
variable {σ κ : Type}

/-- Go `Cluster.createKeyring`. The deferred `conn.Shutdown()` runs last on every
return that follows the `defer` statement. -/
def createKeyring (cs : Clientset σ) (ca : CephAdmin κ) (d : Deps) (c : Cluster)
    (cluster : Option ClusterInfo) (w : World σ κ) : Option GoError × World σ κ :=
  let g := w.secretGet cs c.Namespace appName
  match g.1 with
  | Except.ok _ => (none, g.2)
  | Except.error err =>
    if !IsNotFound err then
      (some (Errorf "failed to get rgw secrets. " err), g.2)
    else
      let context : Context := { ConfigDir := c.dataDir }
      let cn := g.2.connect ca context c.factory cluster
      match cn.1 with
      | Except.error err => (some (Errorf "failed to connect to cluster. " err), cn.2)
      | Except.ok conn =>
        let k := cn.2.createKeyring ca conn
        match k.1 with
        | Except.error err =>
          (some (Errorf "failed to create keyring. " err), k.2.shutdown ca conn)
        | Except.ok keyring =>
          let secret := keyringSecret d c keyring
          let s := k.2.secretCreate cs c.Namespace secret
          match s.1 with
          | Except.error err =>
            (some (Errorf "failed to save rgw secrets. " err), s.2.shutdown ca conn)
          | Except.ok _ => (none, s.2.shutdown ca conn)

/-- Go `Cluster.startService`. The pointer is dereferenced at once, so the
argument is a `ClusterInfo`. -/
def startService (cs : Clientset σ) (d : Deps) (c : Cluster) (clusterInfo : ClusterInfo)
    (w : World σ κ) : Option GoError × World σ κ :=
  let s := rgwService d c clusterInfo
  let r := w.serviceCreate cs c.Namespace s
  match r.1 with
  | Except.error err =>
    if !IsAlreadyExists err then
      (some (Errorf "failed to create mon service. " err), r.2)
    else
      (none, r.2)
  | Except.ok _ => (none, r.2)

/-- Go `Cluster.Start`. A nil `*mon.ClusterInfo` is `none`. -/
def Start (cs : Clientset σ) (ca : CephAdmin κ) (d : Deps) (c : Cluster)
    (cluster : Option ClusterInfo) (w : World σ κ) : Option GoError × World σ κ :=
  match cluster with
  | none => (some (ErrorfPlain "missing mons to start rgw"), w)
  | some ci =>
    if ci.Monitors.length == 0 then
      (some (ErrorfPlain "missing mons to start rgw"), w)
    else
      let k := createKeyring cs ca d c cluster w
      match k.1 with
      | some err => (some (Errorf "failed to create rgw keyring. " err), k.2)
      | none =>
        let s := startService cs d c ci k.2
        match s.1 with
        | some err => (some (Errorf "failed to start rgw service. " err), s.2)
        | none =>
          let deployment := makeDeployment d c ci
          let r := s.2.deploymentCreate cs c.Namespace deployment
          match r.1 with
          | Except.error err =>
            if !IsAlreadyExists err then
              (some (Errorf "failed to create rgw deployment. " err), r.2)
            else
              (none, r.2)
          | Except.ok _ => (none, r.2)

end Code

/-! ## Classifying the calls of the log -/

/-- Calls of the credential step: the secret lookup and save, and the calls
on the storage cluster. -/
def Op.isCredential : Op → Bool
  | Op.secretGet _ _ => true
  | Op.secretCreate _ _ => true
  | Op.connect _ _ _ => true
  | Op.createKeyring _ => true
  | Op.shutdown _ => true
  | _ => false

/-- Delete calls on the Kubernetes client. -/
def Op.isDelete : Op → Bool
  | Op.secretDelete _ _ => true
  | Op.serviceDelete _ _ => true
  | Op.deploymentDelete _ _ => true
  | _ => false

/-- Calls that write a secret. -/
def Op.isSecretWrite : Op → Bool
  | Op.secretCreate _ _ => true
  | Op.secretUpdate _ _ => true
  | _ => false

def Op.isServiceCreate : Op → Bool
  | Op.serviceCreate _ _ => true
  | _ => false

def Op.isDeploymentCreate : Op → Bool
  | Op.deploymentCreate _ _ => true
  | _ => false

/-- Calls on the storage cluster: opening a session, minting, closing. -/
def Op.isCeph : Op → Bool
  | Op.connect _ _ _ => true
  | Op.createKeyring _ => true
  | Op.shutdown _ => true
  | _ => false

def Op.isShutdown : Op → Bool
  | Op.shutdown _ => true
  | _ => false

/-! ## A resource store with atomic get/create semantics

The orchestration platform is outside the repository. Its store is modelled
after the interface the routine consumes: `Get` returns the resource or a
NotFound error, `Create` stores the resource or returns an AlreadyExists error,
and nothing else ever fails. A resource is identified by its kind, namespace
and name. -/

structure Store where
  secrets : List Secret
  services : List Service
  deployments : List Deployment
deriving DecidableEq, Repr

/-- The identity of a resource within its kind. -/
def ObjectMeta.key (m : ObjectMeta) : String × String := (m.Namespace, m.Name)

/-- The metadata names the resource `name` of namespace `ns`. -/
def ObjectMeta.named (ns name : String) (m : ObjectMeta) : Bool :=
  m.key == (ns, name)

/-- A create call in namespace `ns` stores the object in that namespace. -/
def ObjectMeta.inNamespace (ns : String) (m : ObjectMeta) : ObjectMeta :=
  { m with Namespace := ns }

def Store.findSecret (st : Store) (ns name : String) : Option Secret :=
  st.secrets.find? (fun s => s.ObjectMeta.named ns name)

def Store.findService (st : Store) (ns name : String) : Option Service :=
  st.services.find? (fun s => s.ObjectMeta.named ns name)

def Store.findDeployment (st : Store) (ns name : String) : Option Deployment :=
  st.deployments.find? (fun s => s.ObjectMeta.named ns name)

def Store.countSecrets (st : Store) (ns name : String) : Nat :=
  st.secrets.countP (fun s => s.ObjectMeta.named ns name)

def Store.countServices (st : Store) (ns name : String) : Nat :=
  st.services.countP (fun s => s.ObjectMeta.named ns name)

def Store.countDeployments (st : Store) (ns name : String) : Nat :=
  st.deployments.countP (fun s => s.ObjectMeta.named ns name)

/-- No two resources of one kind share namespace and name: the invariant of
a store that is only ever written through atomic creates. -/
def Store.Unique (st : Store) : Prop :=
  (st.secrets.map (fun s => s.ObjectMeta.key)).Nodup
    ∧ (st.services.map (fun s => s.ObjectMeta.key)).Nodup
    ∧ (st.deployments.map (fun s => s.ObjectMeta.key)).Nodup

instance (st : Store) : Decidable st.Unique := by
  unfold Store.Unique
  infer_instance

def notFoundError (name : String) : GoError :=
  { msg := "not found: " ++ name, reason := StatusReason.notFound }

def alreadyExistsError (name : String) : GoError :=
  { msg := "already exists: " ++ name, reason := StatusReason.alreadyExists }

def Store.secretGet (ns name : String) (st : Store) : Except GoError Secret × Store :=
  match st.findSecret ns name with
  | some s => (Except.ok s, st)
  | none => (Except.error (notFoundError name), st)

def Store.secretCreate (ns : String) (s : Secret) (st : Store) :
    Except GoError Secret × Store :=
  match st.findSecret ns s.ObjectMeta.Name with
  | some _ => (Except.error (alreadyExistsError s.ObjectMeta.Name), st)
  | none =>
    let stored : Secret := { s with ObjectMeta := s.ObjectMeta.inNamespace ns }
    (Except.ok stored, { st with secrets := st.secrets ++ [stored] })

def Store.serviceCreate (ns : String) (s : Service) (st : Store) :
    Except GoError Service × Store :=
  match st.findService ns s.ObjectMeta.Name with
  | some _ => (Except.error (alreadyExistsError s.ObjectMeta.Name), st)
  | none =>
    let stored : Service := { s with ObjectMeta := s.ObjectMeta.inNamespace ns }
    (Except.ok stored, { st with services := st.services ++ [stored] })

def Store.deploymentCreate (ns : String) (dp : Deployment) (st : Store) :
    Except GoError Deployment × Store :=
  match st.findDeployment ns dp.ObjectMeta.Name with
  | some _ => (Except.error (alreadyExistsError dp.ObjectMeta.Name), st)
  | none =>
    let stored : Deployment := { dp with ObjectMeta := dp.ObjectMeta.inNamespace ns }
    (Except.ok stored, { st with deployments := st.deployments ++ [stored] })

/-- The client of a store with atomic get/create semantics and no other
failure. -/
def atomicClientset : Clientset Store :=
  { secretGet := Store.secretGet,
    secretCreate := Store.secretCreate,
    serviceCreate := Store.serviceCreate,
    deploymentCreate := Store.deploymentCreate }

/-- The atomic store during an outage of service creation: every service
create fails with `err` and stores nothing; the other calls are atomic. -/
def serviceOutageClientset (err : GoError) : Clientset Store :=
  { secretGet := Store.secretGet,
    secretCreate := Store.secretCreate,
    serviceCreate := fun _ _ st => (Except.error err, st),
    deploymentCreate := Store.deploymentCreate }

/-- The atomic store with a concurrent caller that saves `rival` between this
caller's lookup and its create: the rival's atomic create lands first. -/
def racingClientset (rival : Secret) : Clientset Store :=
  { secretGet := Store.secretGet,
    secretCreate := fun ns s st =>
      Store.secretCreate ns s (Store.secretCreate ns rival st).2,
    serviceCreate := Store.serviceCreate,
    deploymentCreate := Store.deploymentCreate }

def emptyStore : Store := { secrets := [], services := [], deployments := [] }

/-! ## Scenario fixtures: a storage cluster and the imported constants -/

/-- A storage cluster whose state is the list of open sessions. Connecting
opens a fresh session, minting answers with a fixed keyring, shutting down
closes the session. -/
def healthyCeph : CephAdmin (List Conn) :=
  { connect := fun _ _ _ sessions => (Except.ok sessions.length, sessions ++ [sessions.length]),
    createKeyring := fun _ sessions => (Except.ok "AQBkeyring==", sessions),
    shutdown := fun conn sessions => sessions.filter (fun x => x != conn) }

/-- A storage cluster that accepts sessions and refuses to mint. -/
def mintRefusingCeph : CephAdmin (List Conn) :=
  { connect := fun _ _ _ sessions => (Except.ok sessions.length, sessions ++ [sessions.length]),
    createKeyring := fun _ sessions =>
      (Except.error { msg := "mint refused", reason := StatusReason.unknown }, sessions),
    shutdown := fun conn sessions => sessions.filter (fun x => x != conn) }

/-- Values for the imported constants, for the scenarios below. -/
def sampleDeps : Deps :=
  { DataDir := "/var/lib/rook",
    DataDirVolume := "rook-data",
    RookType := "kubernetes.io/rook",
    AppAttr := "app",
    ClusterAttr := "rook_cluster",
    RGWPort := 53390,
    DNSName := "rook-ceph-rgw",
    FlattenMonEndpoints := fun mons => String.intercalate "," mons,
    MakeRookImage := fun version => "quay.io/rook/rookd:" ++ version,
    MonSecretEnvVar := { Name := "ROOKD_MON_SECRET" },
    AdminSecretEnvVar := { Name := "ROOKD_ADMIN_SECRET" } }

def sampleCluster : Cluster := New sampleDeps "rook" "v0.3.0" 0

def sampleInfo : ClusterInfo := { Name := "rookcluster", Monitors := ["mon0=10.0.0.1:6790"] }

def startWorld : World Store (List Conn) := { kube := emptyStore, ceph := [], log := [] }

/-- The secret a concurrent caller saves first. -/
def rivalSecret : Secret :=
  { ObjectMeta := { Name := "rgw", Namespace := "rook" },
    StringData := [("keyring", "AQBrival==")],
    Type_ := "kubernetes.io/rook" }

/-- The failure of the platform during an outage. -/
def outageError : GoError :=
  { msg := "etcdserver: request timed out", reason := StatusReason.unknown }

/-- A platform that is down: every call fails with `err` and changes nothing. -/
def unavailableClientset (err : GoError) : Clientset Store :=
  { secretGet := fun _ _ st => (Except.error err, st),
    secretCreate := fun _ _ st => (Except.error err, st),
    serviceCreate := fun _ _ st => (Except.error err, st),
    deploymentCreate := fun _ _ st => (Except.error err, st) }

/-- The store already holds the secret "rgw" of namespace "rook". -/
def provisionedWorld : World Store (List Conn) :=
  { kube := { secrets := [rivalSecret], services := [], deployments := [] },
    ceph := [], log := [] }

/-! ## The paths through `createKeyring`, `startService` and `Start` -/

section Paths
variable {σ κ : Type}

theorem createKeyring_of_found (cs : Clientset σ) (ca : CephAdmin κ) (d : Deps) (c : Cluster)
    (cluster : Option ClusterInfo) (w : World σ κ) (s : Secret)
    (hget : (cs.secretGet c.Namespace appName w.kube).1 = Except.ok s) :
    createKeyring cs ca d c cluster w
      = (none, { kube := (cs.secretGet c.Namespace appName w.kube).2, ceph := w.ceph,
                 log := w.log ++ [Op.secretGet c.Namespace appName] }) := by
  simp [createKeyring, World.secretGet, hget]

theorem createKeyring_of_get_failed (cs : Clientset σ) (ca : CephAdmin κ) (d : Deps)
    (c : Cluster) (cluster : Option ClusterInfo) (w : World σ κ) (err : GoError)
    (hget : (cs.secretGet c.Namespace appName w.kube).1 = Except.error err)
    (hnf : IsNotFound err = false) :
    createKeyring cs ca d c cluster w
      = (some (Errorf "failed to get rgw secrets. " err),
         { kube := (cs.secretGet c.Namespace appName w.kube).2, ceph := w.ceph,
           log := w.log ++ [Op.secretGet c.Namespace appName] }) := by
  simp [createKeyring, World.secretGet, hget, hnf]

theorem createKeyring_of_connect_failed (cs : Clientset σ) (ca : CephAdmin κ) (d : Deps)
    (c : Cluster) (cluster : Option ClusterInfo) (w : World σ κ) (err e : GoError)
    (hget : (cs.secretGet c.Namespace appName w.kube).1 = Except.error err)
    (hnf : IsNotFound err = true)
    (hconn : (ca.connect { ConfigDir := c.dataDir } c.factory cluster w.ceph).1
      = Except.error e) :
    createKeyring cs ca d c cluster w
      = (some (Errorf "failed to connect to cluster. " e),
         { kube := (cs.secretGet c.Namespace appName w.kube).2,
           ceph := (ca.connect { ConfigDir := c.dataDir } c.factory cluster w.ceph).2,
           log := w.log ++ [Op.secretGet c.Namespace appName,
             Op.connect { ConfigDir := c.dataDir } c.factory cluster] }) := by
  simp [createKeyring, World.secretGet, World.connect, hget, hnf, hconn]

theorem createKeyring_of_mint_failed (cs : Clientset σ) (ca : CephAdmin κ) (d : Deps)
    (c : Cluster) (cluster : Option ClusterInfo) (w : World σ κ) (err e : GoError) (conn : Conn)
    (hget : (cs.secretGet c.Namespace appName w.kube).1 = Except.error err)
    (hnf : IsNotFound err = true)
    (hconn : (ca.connect { ConfigDir := c.dataDir } c.factory cluster w.ceph).1
      = Except.ok conn)
    (hmint : (ca.createKeyring conn
      (ca.connect { ConfigDir := c.dataDir } c.factory cluster w.ceph).2).1 = Except.error e) :
    createKeyring cs ca d c cluster w
      = (some (Errorf "failed to create keyring. " e),
         { kube := (cs.secretGet c.Namespace appName w.kube).2,
           ceph := ca.shutdown conn (ca.createKeyring conn
             (ca.connect { ConfigDir := c.dataDir } c.factory cluster w.ceph).2).2,
           log := w.log ++ [Op.secretGet c.Namespace appName,
             Op.connect { ConfigDir := c.dataDir } c.factory cluster,
             Op.createKeyring conn, Op.shutdown conn] }) := by
  simp [createKeyring, World.secretGet, World.connect, World.createKeyring, World.shutdown,
    hget, hnf, hconn, hmint]

/-- The result of `createKeyring` once a keyring was minted: the outcome of the
save decides the returned error, and the session is shut down last. -/
theorem createKeyring_of_minted (cs : Clientset σ) (ca : CephAdmin κ) (d : Deps)
    (c : Cluster) (cluster : Option ClusterInfo) (w : World σ κ) (err : GoError) (conn : Conn)
    (keyring : String)
    (hget : (cs.secretGet c.Namespace appName w.kube).1 = Except.error err)
    (hnf : IsNotFound err = true)
    (hconn : (ca.connect { ConfigDir := c.dataDir } c.factory cluster w.ceph).1
      = Except.ok conn)
    (hmint : (ca.createKeyring conn
      (ca.connect { ConfigDir := c.dataDir } c.factory cluster w.ceph).2).1
        = Except.ok keyring) :
    createKeyring cs ca d c cluster w
      = ((match (cs.secretCreate c.Namespace (keyringSecret d c keyring)
                  (cs.secretGet c.Namespace appName w.kube).2).1 with
          | Except.error e => some (Errorf "failed to save rgw secrets. " e)
          | Except.ok _ => none),
         { kube := (cs.secretCreate c.Namespace (keyringSecret d c keyring)
                  (cs.secretGet c.Namespace appName w.kube).2).2,
           ceph := ca.shutdown conn (ca.createKeyring conn
             (ca.connect { ConfigDir := c.dataDir } c.factory cluster w.ceph).2).2,
           log := w.log ++ [Op.secretGet c.Namespace appName,
             Op.connect { ConfigDir := c.dataDir } c.factory cluster,
             Op.createKeyring conn,
             Op.secretCreate c.Namespace (keyringSecret d c keyring),
             Op.shutdown conn] }) := by
  simp only [createKeyring, World.secretGet, World.connect, World.createKeyring, World.shutdown,
    World.secretCreate, hget, hnf, hconn, hmint]
  cases (cs.secretCreate c.Namespace (keyringSecret d c keyring)
    (cs.secretGet c.Namespace appName w.kube).2).1 <;> simp

theorem createKeyring_ops (cs : Clientset σ) (ca : CephAdmin κ) (d : Deps) (c : Cluster)
    (cluster : Option ClusterInfo) (w : World σ κ) :
    ∃ ops, (createKeyring cs ca d c cluster w).2.log = w.log ++ ops
      ∧ ∀ op ∈ ops, op.isCredential = true
          ∧ (op.isSecretWrite = true →
              ∃ keyring, op = Op.secretCreate c.Namespace (keyringSecret d c keyring)) := by
  unfold createKeyring
  simp only []
  split
  · exact ⟨[Op.secretGet c.Namespace appName], by simp [World.secretGet], by simp [Op.isCredential, Op.isSecretWrite]⟩
  · split
    · exact ⟨[Op.secretGet c.Namespace appName], by simp [World.secretGet], by simp [Op.isCredential, Op.isSecretWrite]⟩
    · split
      · exact ⟨[Op.secretGet c.Namespace appName, Op.connect ⟨c.dataDir⟩ c.factory cluster],
          by simp [World.secretGet, World.connect], by simp [Op.isCredential, Op.isSecretWrite]⟩
      · rename_i conn _
        split
        · exact ⟨[Op.secretGet c.Namespace appName, Op.connect ⟨c.dataDir⟩ c.factory cluster,
            Op.createKeyring conn, Op.shutdown conn],
            by simp [World.secretGet, World.connect, World.createKeyring, World.shutdown],
            by simp [Op.isCredential, Op.isSecretWrite]⟩
        · rename_i keyring _
          split <;>
          exact ⟨[Op.secretGet c.Namespace appName, Op.connect ⟨c.dataDir⟩ c.factory cluster,
            Op.createKeyring conn, Op.secretCreate c.Namespace (keyringSecret d c keyring),
            Op.shutdown conn],
            by simp [World.secretGet, World.connect, World.createKeyring, World.shutdown,
              World.secretCreate],
            by simp [Op.isCredential, Op.isSecretWrite]⟩

theorem isCredential_exclusive (op : Op) (h : op.isCredential = true) :
    op.isServiceCreate = false ∧ op.isDeploymentCreate = false ∧ op.isDelete = false := by
  cases op <;> simp_all [Op.isCredential, Op.isServiceCreate, Op.isDeploymentCreate, Op.isDelete]

theorem startService_eq (cs : Clientset σ) (d : Deps) (c : Cluster) (ci : ClusterInfo)
    (w : World σ κ) :
    startService cs d c ci w
      = ((match (cs.serviceCreate c.Namespace (rgwService d c ci) w.kube).1 with
          | Except.error e =>
            if IsAlreadyExists e then none
            else some (Errorf "failed to create mon service. " e)
          | Except.ok _ => none),
         { kube := (cs.serviceCreate c.Namespace (rgwService d c ci) w.kube).2,
           ceph := w.ceph,
           log := w.log ++ [Op.serviceCreate c.Namespace (rgwService d c ci)] }) := by
  simp only [startService, World.serviceCreate]
  cases (cs.serviceCreate c.Namespace (rgwService d c ci) w.kube).1 with
  | error e => cases h : IsAlreadyExists e <;> simp [h]
  | ok s => simp

theorem Start_of_mons (cs : Clientset σ) (ca : CephAdmin κ) (d : Deps) (c : Cluster)
    (ci : ClusterInfo) (w : World σ κ) (hm : ci.Monitors ≠ []) :
    Start cs ca d c (some ci) w
      = match (createKeyring cs ca d c (some ci) w).1 with
        | some err =>
          (some (Errorf "failed to create rgw keyring. " err),
            (createKeyring cs ca d c (some ci) w).2)
        | none =>
          match (startService cs d c ci (createKeyring cs ca d c (some ci) w).2).1 with
          | some err =>
            (some (Errorf "failed to start rgw service. " err),
              (startService cs d c ci (createKeyring cs ca d c (some ci) w).2).2)
          | none =>
            ((match (cs.deploymentCreate c.Namespace (makeDeployment d c ci)
                  (startService cs d c ci (createKeyring cs ca d c (some ci) w).2).2.kube).1 with
              | Except.error e =>
                if IsAlreadyExists e then none
                else some (Errorf "failed to create rgw deployment. " e)
              | Except.ok _ => none),
             { kube := (cs.deploymentCreate c.Namespace (makeDeployment d c ci)
                  (startService cs d c ci (createKeyring cs ca d c (some ci) w).2).2.kube).2,
               ceph := (startService cs d c ci (createKeyring cs ca d c (some ci) w).2).2.ceph,
               log := (startService cs d c ci (createKeyring cs ca d c (some ci) w).2).2.log
                 ++ [Op.deploymentCreate c.Namespace (makeDeployment d c ci)] }) := by
  have hlen : (ci.Monitors.length == 0) = false := by
    cases hM : ci.Monitors with
    | nil => exact absurd hM hm
    | cons a l => simp
  simp only [Start, hlen, World.deploymentCreate]
  cases (createKeyring cs ca d c (some ci) w).1 with
  | some err => simp
  | none =>
    simp only []
    cases (startService cs d c ci (createKeyring cs ca d c (some ci) w).2).1 with
    | some err => simp
    | none =>
      simp only []
      cases (cs.deploymentCreate c.Namespace (makeDeployment d c ci)
        (startService cs d c ci (createKeyring cs ca d c (some ci) w).2).2.kube).1 with
      | error e => cases h : IsAlreadyExists e <;> simp [h]
      | ok s => simp

end Paths

/-! ## Facts about the atomic store -/

section StoreFacts
variable {σ κ : Type}

theorem countP_named_le_one {α : Type} (m : α → ObjectMeta) (ns name : String) (l : List α)
    (h : (l.map (fun x => (m x).key)).Nodup) :
    l.countP (fun x => (m x).named ns name) ≤ 1 := by
  induction l with
  | nil => simp
  | cons a l ih =>
    simp only [List.map_cons, List.nodup_cons] at h
    by_cases ha : (m a).named ns name = true
    · have hz : l.countP (fun x => (m x).named ns name) = 0 := by
        rw [List.countP_eq_zero]
        intro x hx hxn
        apply h.1
        simp only [ObjectMeta.named, beq_iff_eq] at ha hxn
        rw [ha, ← hxn]
        exact List.mem_map_of_mem (fun x => (m x).key) hx
      simp [List.countP_cons, ha, hz]
    · have := ih h.2
      simp [List.countP_cons, ha, this]

theorem countP_pos_of_find {α : Type} (p : α → Bool) (l : List α) (a : α)
    (h : l.find? p = some a) : 0 < l.countP p := by
  rw [List.countP_pos_iff]
  exact ⟨a, List.mem_of_find?_eq_some h, List.find?_some h⟩

theorem countP_zero_of_find {α : Type} (p : α → Bool) (l : List α)
    (h : l.find? p = none) : l.countP p = 0 := by
  rw [List.countP_eq_zero]
  intro x hx
  exact (List.find?_eq_none.1 h) x hx

theorem find_append_of_none {α : Type} (p : α → Bool) (l : List α) (a : α)
    (h : l.find? p = none) (ha : p a = true) : (l ++ [a]).find? p = some a := by
  simp [List.find?_append, h, ha]

theorem secretGet_of_found (st : Store) (ns name : String) (s : Secret)
    (h : st.findSecret ns name = some s) : Store.secretGet ns name st = (Except.ok s, st) := by
  simp [Store.secretGet, h]

theorem secretGet_of_absent (st : Store) (ns name : String)
    (h : st.findSecret ns name = none) :
    Store.secretGet ns name st = (Except.error (notFoundError name), st) := by
  simp [Store.secretGet, h]

theorem serviceCreate_of_found (st : Store) (ns : String) (s x : Service)
    (h : st.findService ns s.ObjectMeta.Name = some x) :
    Store.serviceCreate ns s st = (Except.error (alreadyExistsError s.ObjectMeta.Name), st) := by
  simp [Store.serviceCreate, h]

theorem serviceCreate_of_absent (st : Store) (ns : String) (s : Service)
    (h : st.findService ns s.ObjectMeta.Name = none) :
    Store.serviceCreate ns s st
      = (Except.ok { s with ObjectMeta := s.ObjectMeta.inNamespace ns },
         { st with services := st.services
             ++ [{ s with ObjectMeta := s.ObjectMeta.inNamespace ns }] }) := by
  simp [Store.serviceCreate, h]

theorem deploymentCreate_of_found (st : Store) (ns : String) (dp x : Deployment)
    (h : st.findDeployment ns dp.ObjectMeta.Name = some x) :
    Store.deploymentCreate ns dp st
      = (Except.error (alreadyExistsError dp.ObjectMeta.Name), st) := by
  simp [Store.deploymentCreate, h]

theorem deploymentCreate_of_absent (st : Store) (ns : String) (dp : Deployment)
    (h : st.findDeployment ns dp.ObjectMeta.Name = none) :
    Store.deploymentCreate ns dp st
      = (Except.ok { dp with ObjectMeta := dp.ObjectMeta.inNamespace ns },
         { st with deployments := st.deployments
             ++ [{ dp with ObjectMeta := dp.ObjectMeta.inNamespace ns }] }) := by
  simp [Store.deploymentCreate, h]

theorem named_inNamespace (ns : String) (m : ObjectMeta) :
    (m.inNamespace ns).named ns m.Name = true := by
  simp [ObjectMeta.named, ObjectMeta.inNamespace, ObjectMeta.key]

/-- What an atomic service create leaves behind. -/
theorem serviceCreate_effect (st : Store) (ns : String) (s : Service) :
    (∀ e, (Store.serviceCreate ns s st).1 = Except.error e → IsAlreadyExists e = true)
      ∧ (Store.serviceCreate ns s st).2.secrets = st.secrets
      ∧ (Store.serviceCreate ns s st).2.deployments = st.deployments
      ∧ ((Store.serviceCreate ns s st).2.findService ns s.ObjectMeta.Name).isSome = true
      ∧ ((st.services.map (fun x => x.ObjectMeta.key)).Nodup →
          (Store.serviceCreate ns s st).2.countServices ns s.ObjectMeta.Name = 1) := by
  cases h : st.findService ns s.ObjectMeta.Name with
  | some x =>
    rw [serviceCreate_of_found st ns s x h]
    refine ⟨?_, rfl, rfl, by simp [h], ?_⟩
    · intro e he
      cases he
      rfl
    · intro hU
      have h1 : st.services.countP (fun x => x.ObjectMeta.named ns s.ObjectMeta.Name) ≤ 1 :=
        countP_named_le_one (fun x : Service => x.ObjectMeta) ns s.ObjectMeta.Name
          st.services hU
      have h2 : 0 < st.services.countP (fun x => x.ObjectMeta.named ns s.ObjectMeta.Name) :=
        countP_pos_of_find _ _ _ h
      simp only [Store.countServices]
      omega
  | none =>
    rw [serviceCreate_of_absent st ns s h]
    refine ⟨?_, rfl, rfl, ?_, ?_⟩
    · intro e he
      cases he
    · simp only [Store.findService]
      rw [find_append_of_none _ _ _ h (named_inNamespace ns s.ObjectMeta)]
      rfl
    · intro _
      have h0 := countP_zero_of_find _ _ h
      simp only [Store.countServices, List.countP_append, h0]
      simp [List.countP_cons, named_inNamespace]

/-- What an atomic deployment create leaves behind. -/
theorem deploymentCreate_effect (st : Store) (ns : String) (dp : Deployment) :
    (∀ e, (Store.deploymentCreate ns dp st).1 = Except.error e → IsAlreadyExists e = true)
      ∧ (Store.deploymentCreate ns dp st).2.secrets = st.secrets
      ∧ (Store.deploymentCreate ns dp st).2.services = st.services
      ∧ ((Store.deploymentCreate ns dp st).2.findDeployment ns dp.ObjectMeta.Name).isSome = true
      ∧ ((st.deployments.map (fun x => x.ObjectMeta.key)).Nodup →
          (Store.deploymentCreate ns dp st).2.countDeployments ns dp.ObjectMeta.Name = 1) := by
  cases h : st.findDeployment ns dp.ObjectMeta.Name with
  | some x =>
    rw [deploymentCreate_of_found st ns dp x h]
    refine ⟨?_, rfl, rfl, by simp [h], ?_⟩
    · intro e he
      cases he
      rfl
    · intro hU
      have h1 : st.deployments.countP (fun x => x.ObjectMeta.named ns dp.ObjectMeta.Name)
          ≤ 1 :=
        countP_named_le_one (fun x : Deployment => x.ObjectMeta) ns dp.ObjectMeta.Name
          st.deployments hU
      have h2 : 0 < st.deployments.countP
          (fun x => x.ObjectMeta.named ns dp.ObjectMeta.Name) :=
        countP_pos_of_find _ _ _ h
      simp only [Store.countDeployments]
      omega
  | none =>
    rw [deploymentCreate_of_absent st ns dp h]
    refine ⟨?_, rfl, rfl, ?_, ?_⟩
    · intro e he
      cases he
    · simp only [Store.findDeployment]
      rw [find_append_of_none _ _ _ h (named_inNamespace ns dp.ObjectMeta)]
      rfl
    · intro _
      have h0 := countP_zero_of_find _ _ h
      simp only [Store.countDeployments, List.countP_append, h0]
      simp [List.countP_cons, named_inNamespace]

/-- The credential step over a store whose secret calls are atomic: a present
secret makes it a lookup and nothing else; an absent one, when the step
succeeds, is created from a minted keyring and nothing else in the store
changes. -/
theorem createKeyring_on_store (cs : Clientset Store) (ca : CephAdmin κ) (d : Deps)
    (c : Cluster) (cluster : Option ClusterInfo) (w : World Store κ)
    (hg : cs.secretGet = Store.secretGet) (hc : cs.secretCreate = Store.secretCreate) :
    (∀ s, w.kube.findSecret c.Namespace appName = some s →
        createKeyring cs ca d c cluster w
          = (none, { kube := w.kube, ceph := w.ceph,
                     log := w.log ++ [Op.secretGet c.Namespace appName] }))
      ∧ (w.kube.findSecret c.Namespace appName = none →
          (createKeyring cs ca d c cluster w).1 = none →
          ∃ keyring,
            (createKeyring cs ca d c cluster w).2.kube
                = { w.kube with secrets := w.kube.secrets ++ [keyringSecret d c keyring] }
              ∧ Op.secretCreate c.Namespace (keyringSecret d c keyring)
                  ∈ (createKeyring cs ca d c cluster w).2.log) := by
  constructor
  · intro s hs
    have hget : (cs.secretGet c.Namespace appName w.kube).1 = Except.ok s := by
      rw [hg, secretGet_of_found _ _ _ _ hs]
    rw [createKeyring_of_found cs ca d c cluster w s hget, hg, secretGet_of_found _ _ _ _ hs]
  · intro hs hres
    have hget : (cs.secretGet c.Namespace appName w.kube).1
        = Except.error (notFoundError appName) := by
      rw [hg, secretGet_of_absent _ _ _ hs]
    have hst : (cs.secretGet c.Namespace appName w.kube).2 = w.kube := by
      rw [hg, secretGet_of_absent _ _ _ hs]
    cases hconn : (ca.connect { ConfigDir := c.dataDir } c.factory cluster w.ceph).1 with
    | error e =>
      rw [createKeyring_of_connect_failed cs ca d c cluster w _ e hget rfl hconn] at hres
      cases hres
    | ok conn =>
      cases hmint : (ca.createKeyring conn
          (ca.connect { ConfigDir := c.dataDir } c.factory cluster w.ceph).2).1 with
      | error e =>
        rw [createKeyring_of_mint_failed cs ca d c cluster w _ e conn hget rfl hconn hmint]
          at hres
        cases hres
      | ok keyring =>
        have hk := createKeyring_of_minted cs ca d c cluster w _ conn keyring hget rfl hconn
          hmint
        refine ⟨keyring, ?_, ?_⟩
        · rw [hk, hst, hc]
          have hfind : w.kube.findSecret c.Namespace
              (keyringSecret d c keyring).ObjectMeta.Name = none := hs
          simp only [Store.secretCreate, hfind]
          rfl
        · rw [hk]
          simp

/-- The world `Start` leaves when the credential step succeeds and neither
create fails with anything but AlreadyExists. -/
theorem Start_of_benign_creates (cs : Clientset σ) (ca : CephAdmin κ) (d : Deps) (c : Cluster)
    (ci : ClusterInfo) (w : World σ κ) (hm : ci.Monitors ≠ [])
    (hk : (createKeyring cs ca d c (some ci) w).1 = none)
    (hs : ∀ e, (cs.serviceCreate c.Namespace (rgwService d c ci)
        (createKeyring cs ca d c (some ci) w).2.kube).1 = Except.error e →
          IsAlreadyExists e = true)
    (hd : ∀ e, (cs.deploymentCreate c.Namespace (makeDeployment d c ci)
        (cs.serviceCreate c.Namespace (rgwService d c ci)
          (createKeyring cs ca d c (some ci) w).2.kube).2).1 = Except.error e →
          IsAlreadyExists e = true) :
    Start cs ca d c (some ci) w
      = (none,
         { kube := (cs.deploymentCreate c.Namespace (makeDeployment d c ci)
              (cs.serviceCreate c.Namespace (rgwService d c ci)
                (createKeyring cs ca d c (some ci) w).2.kube).2).2,
           ceph := (createKeyring cs ca d c (some ci) w).2.ceph,
           log := (createKeyring cs ca d c (some ci) w).2.log
             ++ [Op.serviceCreate c.Namespace (rgwService d c ci),
                 Op.deploymentCreate c.Namespace (makeDeployment d c ci)] }) := by
  have hS := Start_of_mons cs ca d c ci w hm
  simp only [startService_eq] at hS
  rw [hS, hk]
  have hsv : (match (cs.serviceCreate c.Namespace (rgwService d c ci)
          (createKeyring cs ca d c (some ci) w).2.kube).1 with
          | Except.error e =>
            if IsAlreadyExists e = true then none
            else some (Errorf "failed to create mon service. " e)
          | Except.ok _ => none) = none := by
    cases h : (cs.serviceCreate c.Namespace (rgwService d c ci)
          (createKeyring cs ca d c (some ci) w).2.kube).1 with
    | error e => simp [hs e h]
    | ok x => rfl
  simp only [hsv]
  cases h : (cs.deploymentCreate c.Namespace (makeDeployment d c ci)
        (cs.serviceCreate c.Namespace (rgwService d c ci)
          (createKeyring cs ca d c (some ci) w).2.kube).2).1 with
  | error e => simp [hd e h]
  | ok x => simp

/-- A successful credential step over atomic secret calls leaves the secret
"rgw" in the store, once, and touches no service and no deployment. -/
theorem createKeyring_store_success (cs : Clientset Store) (ca : CephAdmin κ) (d : Deps)
    (c : Cluster) (cluster : Option ClusterInfo) (w : World Store κ)
    (hg : cs.secretGet = Store.secretGet) (hc : cs.secretCreate = Store.secretCreate)
    (hres : (createKeyring cs ca d c cluster w).1 = none) :
    ((createKeyring cs ca d c cluster w).2.kube.findSecret c.Namespace appName).isSome = true
      ∧ (createKeyring cs ca d c cluster w).2.kube.services = w.kube.services
      ∧ (createKeyring cs ca d c cluster w).2.kube.deployments = w.kube.deployments
      ∧ ((w.kube.secrets.map (fun x => x.ObjectMeta.key)).Nodup →
          (createKeyring cs ca d c cluster w).2.kube.countSecrets c.Namespace appName = 1) := by
  have hstore := createKeyring_on_store cs ca d c cluster w hg hc
  cases hf : w.kube.findSecret c.Namespace appName with
  | some s =>
    rw [hstore.1 s hf]
    refine ⟨by simp [hf], rfl, rfl, ?_⟩
    intro hU
    have h1 : w.kube.secrets.countP (fun x => x.ObjectMeta.named c.Namespace appName) ≤ 1 :=
      countP_named_le_one (fun x : Secret => x.ObjectMeta) c.Namespace appName _ hU
    have h2 : 0 < w.kube.secrets.countP (fun x => x.ObjectMeta.named c.Namespace appName) :=
      countP_pos_of_find _ _ _ hf
    simp only [Store.countSecrets]
    omega
  | none =>
    obtain ⟨keyring, hkube, _⟩ := hstore.2 hf hres
    rw [hkube]
    have hnamed : (keyringSecret d c keyring).ObjectMeta.named c.Namespace appName = true := by
      simp [keyringSecret, ObjectMeta.named, ObjectMeta.key]
    refine ⟨?_, rfl, rfl, ?_⟩
    · simp only [Store.findSecret]
      rw [find_append_of_none _ _ _ hf hnamed]
      rfl
    · intro _
      have h0 : w.kube.secrets.countP (fun x => x.ObjectMeta.named c.Namespace appName) = 0 :=
        countP_zero_of_find _ _ hf
      simp only [Store.countSecrets, List.countP_append, h0]
      simp [List.countP_cons, hnamed]

/-- Over a store that holds the secret, the service and the deployment,
`Start` succeeds by one lookup and two creates that are answered
AlreadyExists, and the store and the storage cluster stay as they are. -/
theorem Start_on_provisioned (ca : CephAdmin κ) (d : Deps) (c : Cluster) (ci : ClusterInfo)
    (w : World Store κ) (hm : ci.Monitors ≠ [])
    (h1 : (w.kube.findSecret c.Namespace appName).isSome = true)
    (h2 : (w.kube.findService c.Namespace appName).isSome = true)
    (h3 : (w.kube.findDeployment c.Namespace appName).isSome = true) :
    Start atomicClientset ca d c (some ci) w
      = (none,
         { kube := w.kube, ceph := w.ceph,
           log := w.log ++ [Op.secretGet c.Namespace appName,
             Op.serviceCreate c.Namespace (rgwService d c ci),
             Op.deploymentCreate c.Namespace (makeDeployment d c ci)] }) := by
  obtain ⟨s, hs⟩ := Option.isSome_iff_exists.1 h1
  obtain ⟨sv, hsv⟩ := Option.isSome_iff_exists.1 h2
  obtain ⟨dp, hdp⟩ := Option.isSome_iff_exists.1 h3
  have hk := (createKeyring_on_store atomicClientset ca d c (some ci) w rfl rfl).1 s hs
  have hsc : Store.serviceCreate c.Namespace (rgwService d c ci) w.kube
      = (Except.error (alreadyExistsError appName), w.kube) :=
    serviceCreate_of_found w.kube c.Namespace (rgwService d c ci) sv hsv
  have hdc : Store.deploymentCreate c.Namespace (makeDeployment d c ci) w.kube
      = (Except.error (alreadyExistsError appName), w.kube) :=
    deploymentCreate_of_found w.kube c.Namespace (makeDeployment d c ci) dp hdp
  have hS := Start_of_benign_creates atomicClientset ca d c ci w hm (by rw [hk])
    (by
      intro e he
      rw [hk] at he
      simp only [atomicClientset, hsc] at he
      cases he
      rfl)
    (by
      intro e he
      rw [hk] at he
      simp only [atomicClientset, hsc, hdc] at he
      cases he
      rfl)
  rw [hS, hk]
  simp only [atomicClientset, hsc, hdc, List.append_assoc, List.singleton_append]

end StoreFacts

/-! ## The claims -/

section Claims
variable {σ κ : Type}

/-- C2: `Start` called with a nil `ClusterInfo`, or with one whose `Monitors`
collection is empty, returns the error "missing mons to start rgw" and leaves
the world as it found it: no call is logged, so no secret get or create, no
administrative connection, no service create and no deployment create is
issued, and neither the client state nor the storage-cluster state moves. -/
theorem Start_rejects_missing_mons (cs : Clientset σ) (ca : CephAdmin κ) (d : Deps)
    (c : Cluster) (cluster : Option ClusterInfo) (w : World σ κ)
    (h : cluster = none ∨ ∃ ci, cluster = some ci ∧ ci.Monitors.length = 0) :
    (Start cs ca d c cluster w).1 = some (ErrorfPlain "missing mons to start rgw")
      ∧ (Start cs ca d c cluster w).2.log = w.log
      ∧ (Start cs ca d c cluster w).2 = w := by
  rcases h with h | ⟨ci, h, hm⟩
  · subst h
    exact ⟨rfl, rfl, rfl⟩
  · subst h
    simp [Start, hm]

theorem Start_rejects_missing_mons_witness :
    (Start atomicClientset healthyCeph sampleDeps sampleCluster none startWorld).1
        = some (ErrorfPlain "missing mons to start rgw")
      ∧ (Start atomicClientset healthyCeph sampleDeps sampleCluster
          (some { Name := "rookcluster", Monitors := [] }) startWorld).2.log = [] :=
  ⟨(Start_rejects_missing_mons atomicClientset healthyCeph sampleDeps sampleCluster none
      startWorld (Or.inl rfl)).1,
   (Start_rejects_missing_mons atomicClientset healthyCeph sampleDeps sampleCluster
      (some { Name := "rookcluster", Monitors := [] }) startWorld
      (Or.inr ⟨_, rfl, rfl⟩)).2.1⟩

/-- C4: `createKeyring` first looks up the secret "rgw". If the lookup
succeeds it returns success and the lookup is the only call it issued: no
connection, no minting, no secret written. If the lookup fails with an error
that is not NotFound it returns the error "failed to get rgw secrets. ..." and
again the lookup is the only call. Hence a call on the storage cluster or a
secret write appears among the calls of `createKeyring` only when the lookup
failed with NotFound. -/
theorem createKeyring_connects_only_on_notFound (cs : Clientset σ) (ca : CephAdmin κ)
    (d : Deps) (c : Cluster) (cluster : Option ClusterInfo) (w : World σ κ) :
    (∀ s, (cs.secretGet c.Namespace appName w.kube).1 = Except.ok s →
        createKeyring cs ca d c cluster w
          = (none, { kube := (cs.secretGet c.Namespace appName w.kube).2, ceph := w.ceph,
                     log := w.log ++ [Op.secretGet c.Namespace appName] }))
      ∧ (∀ err, (cs.secretGet c.Namespace appName w.kube).1 = Except.error err →
          IsNotFound err = false →
          createKeyring cs ca d c cluster w
            = (some (Errorf "failed to get rgw secrets. " err),
               { kube := (cs.secretGet c.Namespace appName w.kube).2, ceph := w.ceph,
                 log := w.log ++ [Op.secretGet c.Namespace appName] }))
      ∧ (∀ ops, (createKeyring cs ca d c cluster w).2.log = w.log ++ ops →
          (∃ op ∈ ops, op.isCeph = true ∨ op.isSecretWrite = true) →
          ∃ err, (cs.secretGet c.Namespace appName w.kube).1 = Except.error err
            ∧ IsNotFound err = true) := by
  refine ⟨fun s hs => createKeyring_of_found cs ca d c cluster w s hs,
    fun err he hnf => createKeyring_of_get_failed cs ca d c cluster w err he hnf, ?_⟩
  intro ops hops hex
  cases hg : (cs.secretGet c.Namespace appName w.kube).1 with
  | ok s =>
    rw [createKeyring_of_found cs ca d c cluster w s hg] at hops
    have : ops = [Op.secretGet c.Namespace appName] := (List.append_cancel_left hops).symm
    subst this
    simp [Op.isCeph, Op.isSecretWrite] at hex
  | error err =>
    cases hnf : IsNotFound err with
    | true => exact ⟨err, rfl, hnf⟩
    | false =>
      rw [createKeyring_of_get_failed cs ca d c cluster w err hg hnf] at hops
      have : ops = [Op.secretGet c.Namespace appName] := (List.append_cancel_left hops).symm
      subst this
      simp [Op.isCeph, Op.isSecretWrite] at hex

theorem createKeyring_connects_only_on_notFound_witness :
    createKeyring atomicClientset healthyCeph sampleDeps sampleCluster (some sampleInfo)
        provisionedWorld
      = (none, { kube := provisionedWorld.kube, ceph := [],
                 log := [Op.secretGet "rook" "rgw"] })
    ∧ createKeyring (unavailableClientset outageError) healthyCeph sampleDeps sampleCluster
        (some sampleInfo) startWorld
      = (some (Errorf "failed to get rgw secrets. " outageError),
         { kube := emptyStore, ceph := [], log := [Op.secretGet "rook" "rgw"] }) :=
  ⟨(createKeyring_connects_only_on_notFound atomicClientset healthyCeph sampleDeps
      sampleCluster (some sampleInfo) provisionedWorld).1 rivalSecret rfl,
   (createKeyring_connects_only_on_notFound (unavailableClientset outageError) healthyCeph
      sampleDeps sampleCluster (some sampleInfo) startWorld).2.1 outageError rfl rfl⟩

/-- C5: when the lookup of the secret fails with NotFound and the
administrative connection `conn` is opened, every return of `createKeyring`
is preceded by exactly one `Shutdown` of `conn`: the calls issued are the
lookup, the connect, some calls none of which is a shutdown, and last the
shutdown of `conn`, whose effect is part of the returned storage-cluster state.
This covers the three exits after the `defer`. When minting fails the calls are
exactly lookup, connect, mint, shutdown, the client state is the one the lookup
left (no secret is created) and the error "failed to create keyring. ..." is
returned; when the save fails the error "failed to save rgw secrets. ..." is
returned; when the save succeeds the result is success. -/
theorem createKeyring_shuts_down_once (cs : Clientset σ) (ca : CephAdmin κ) (d : Deps)
    (c : Cluster) (cluster : Option ClusterInfo) (w : World σ κ) (err : GoError) (conn : Conn)
    (hget : (cs.secretGet c.Namespace appName w.kube).1 = Except.error err)
    (hnf : IsNotFound err = true)
    (hconn : (ca.connect { ConfigDir := c.dataDir } c.factory cluster w.ceph).1
      = Except.ok conn) :
    (∃ mid, (createKeyring cs ca d c cluster w).2.log
          = w.log ++ [Op.secretGet c.Namespace appName,
              Op.connect { ConfigDir := c.dataDir } c.factory cluster] ++ mid
              ++ [Op.shutdown conn]
        ∧ ∀ op ∈ mid, op.isShutdown = false)
      ∧ (∃ z, (createKeyring cs ca d c cluster w).2.ceph = ca.shutdown conn z)
      ∧ (∀ e, (ca.createKeyring conn
            (ca.connect { ConfigDir := c.dataDir } c.factory cluster w.ceph).2).1
              = Except.error e →
          createKeyring cs ca d c cluster w
            = (some (Errorf "failed to create keyring. " e),
               { kube := (cs.secretGet c.Namespace appName w.kube).2,
                 ceph := ca.shutdown conn (ca.createKeyring conn
                   (ca.connect { ConfigDir := c.dataDir } c.factory cluster w.ceph).2).2,
                 log := w.log ++ [Op.secretGet c.Namespace appName,
                   Op.connect { ConfigDir := c.dataDir } c.factory cluster,
                   Op.createKeyring conn, Op.shutdown conn] }))
      ∧ (∀ keyring e, (ca.createKeyring conn
            (ca.connect { ConfigDir := c.dataDir } c.factory cluster w.ceph).2).1
              = Except.ok keyring →
          (cs.secretCreate c.Namespace (keyringSecret d c keyring)
            (cs.secretGet c.Namespace appName w.kube).2).1 = Except.error e →
          (createKeyring cs ca d c cluster w).1
            = some (Errorf "failed to save rgw secrets. " e))
      ∧ (∀ keyring s, (ca.createKeyring conn
            (ca.connect { ConfigDir := c.dataDir } c.factory cluster w.ceph).2).1
              = Except.ok keyring →
          (cs.secretCreate c.Namespace (keyringSecret d c keyring)
            (cs.secretGet c.Namespace appName w.kube).2).1 = Except.ok s →
          (createKeyring cs ca d c cluster w).1 = none) := by
  cases hmint : (ca.createKeyring conn
      (ca.connect { ConfigDir := c.dataDir } c.factory cluster w.ceph).2).1 with
  | error e =>
    have hk := createKeyring_of_mint_failed cs ca d c cluster w err e conn hget hnf hconn hmint
    refine ⟨⟨[Op.createKeyring conn], ?_, ?_⟩, ⟨_, by rw [hk]⟩, ?_, ?_, ?_⟩
    · rw [hk]; simp
    · simp [Op.isShutdown]
    · intro e2 he2
      cases he2
      exact hk
    · intro keyring e2 h
      cases h
    · intro keyring s h
      cases h
  | ok keyring =>
    have hk := createKeyring_of_minted cs ca d c cluster w err conn keyring hget hnf hconn hmint
    refine ⟨⟨[Op.createKeyring conn, Op.secretCreate c.Namespace (keyringSecret d c keyring)],
      ?_, ?_⟩, ⟨_, by rw [hk]⟩, ?_, ?_, ?_⟩
    · rw [hk]; simp
    · simp [Op.isShutdown]
    · intro e2 he2
      cases he2
    · intro keyring2 e2 h hs
      cases h
      rw [hk, hs]
    · intro keyring2 s h hs
      cases h
      rw [hk, hs]

theorem createKeyring_shuts_down_once_witness :
    createKeyring atomicClientset mintRefusingCeph sampleDeps sampleCluster (some sampleInfo)
        startWorld
      = (some (Errorf "failed to create keyring. "
            { msg := "mint refused", reason := StatusReason.unknown }),
         { kube := emptyStore,
           ceph := [],
           log := [Op.secretGet "rook" "rgw",
             Op.connect { ConfigDir := "/var/lib/rook" } 0 (some sampleInfo),
             Op.createKeyring 0, Op.shutdown 0] }) :=
  (createKeyring_shuts_down_once atomicClientset mintRefusingCeph sampleDeps sampleCluster
    (some sampleInfo) startWorld (notFoundError "rgw") 0 rfl rfl rfl).2.2.1
    { msg := "mint refused", reason := StatusReason.unknown } rfl

/-- C6: for a membership with at least one monitor, `Start` runs the
credential step, then the service create, then the deployment create, and the
first failing step ends the call. With `k` the outcome of `createKeyring`, `s`
the outcome of the service create issued in the state `k` left and `dp` the
outcome of the deployment create issued in the state `s` left:
the calls of the credential step are no service or deployment creates;
if `createKeyring` returns an error `e`, `Start` returns "failed to create rgw
keyring. " followed by the text of `e`, in the world `createKeyring` left, so no
service create and no deployment create is issued;
if the service create fails with an error `e` that is not AlreadyExists,
`Start` returns "failed to start rgw service. failed to create mon service. "
followed by the text of `e`, and the service create is the last call issued;
otherwise the deployment create follows the service create, and `Start` fails
with "failed to create rgw deployment. " followed by the text of the error
exactly when that create fails with an error that is not AlreadyExists;
and none of the calls `Start` issues is a delete. -/
theorem Start_steps_in_order (cs : Clientset σ) (ca : CephAdmin κ) (d : Deps) (c : Cluster)
    (ci : ClusterInfo) (w : World σ κ)
    (k : Option GoError × World σ κ) (s : Except GoError Service × σ)
    (dp : Except GoError Deployment × σ)
    (hm : ci.Monitors ≠ [])
    (hk : createKeyring cs ca d c (some ci) w = k)
    (hs : cs.serviceCreate c.Namespace (rgwService d c ci) k.2.kube = s)
    (hdp : cs.deploymentCreate c.Namespace (makeDeployment d c ci) s.2 = dp) :
    (∃ ops, k.2.log = w.log ++ ops
        ∧ ∀ op ∈ ops, op.isCredential = true ∧ op.isServiceCreate = false
            ∧ op.isDeploymentCreate = false)
      ∧ (∀ e, k.1 = some e →
          Start cs ca d c (some ci) w
            = (some (Errorf "failed to create rgw keyring. " e), k.2))
      ∧ (∀ e, k.1 = none → s.1 = Except.error e → IsAlreadyExists e = false →
          Start cs ca d c (some ci) w
            = (some (Errorf "failed to start rgw service. "
                  (Errorf "failed to create mon service. " e)),
               { kube := s.2, ceph := k.2.ceph,
                 log := k.2.log ++ [Op.serviceCreate c.Namespace (rgwService d c ci)] }))
      ∧ (k.1 = none → (∀ e, s.1 = Except.error e → IsAlreadyExists e = true) →
          (Start cs ca d c (some ci) w).2
              = { kube := dp.2, ceph := k.2.ceph,
                  log := k.2.log ++ [Op.serviceCreate c.Namespace (rgwService d c ci),
                    Op.deploymentCreate c.Namespace (makeDeployment d c ci)] }
            ∧ (∀ e, dp.1 = Except.error e → IsAlreadyExists e = false →
                (Start cs ca d c (some ci) w).1
                  = some (Errorf "failed to create rgw deployment. " e))
            ∧ ((∀ e, dp.1 = Except.error e → IsAlreadyExists e = true) →
                (Start cs ca d c (some ci) w).1 = none))
      ∧ (∃ ops, (Start cs ca d c (some ci) w).2.log = w.log ++ ops
          ∧ ∀ op ∈ ops, op.isDelete = false) := by
  subst hk hs hdp
  obtain ⟨ops, hops, hcred⟩ := createKeyring_ops cs ca d c (some ci) w
  have hS := Start_of_mons cs ca d c ci w hm
  simp only [startService_eq] at hS
  refine ⟨⟨ops, hops, fun op hop => ⟨(hcred op hop).1, (isCredential_exclusive op (hcred op hop).1).1,
    (isCredential_exclusive op (hcred op hop).1).2.1⟩⟩, ?_, ?_, ?_, ?_⟩
  · intro e he
    rw [hS, he]
  · intro e hk hs hae
    rw [hS, hk]
    simp [hs, hae]
  · intro hk hs
    cases hsv : (cs.serviceCreate c.Namespace (rgwService d c ci)
        (createKeyring cs ca d c (some ci) w).2.kube).1 with
    | error e =>
      have hae := hs e hsv
      rw [hS, hk]
      simp only [hsv, hae, if_true]
      refine ⟨by simp, ?_, ?_⟩
      · intro e2 hd hae2
        simp [hd, hae2]
      · intro hd
        cases hdv : (cs.deploymentCreate c.Namespace (makeDeployment d c ci)
          (cs.serviceCreate c.Namespace (rgwService d c ci)
            (createKeyring cs ca d c (some ci) w).2.kube).2).1 with
        | error e2 => simp [hd e2 hdv]
        | ok x => simp
    | ok sv =>
      rw [hS, hk]
      simp only [hsv]
      refine ⟨by simp, ?_, ?_⟩
      · intro e2 hd hae2
        simp [hd, hae2]
      · intro hd
        cases hdv : (cs.deploymentCreate c.Namespace (makeDeployment d c ci)
          (cs.serviceCreate c.Namespace (rgwService d c ci)
            (createKeyring cs ca d c (some ci) w).2.kube).2).1 with
        | error e2 => simp [hd e2 hdv]
        | ok x => simp
  · have hdel : ∀ op ∈ ops, op.isDelete = false :=
      fun op hop => (isCredential_exclusive op (hcred op hop).1).2.2
    rw [hS]
    cases hkv : (createKeyring cs ca d c (some ci) w).1 with
    | some e => exact ⟨ops, hops, hdel⟩
    | none =>
      simp only []
      cases hsv : (match (cs.serviceCreate c.Namespace (rgwService d c ci)
          (createKeyring cs ca d c (some ci) w).2.kube).1 with
          | Except.error e =>
            if IsAlreadyExists e = true then none
            else some (Errorf "failed to create mon service. " e)
          | Except.ok _ => none) with
      | some e =>
        refine ⟨ops ++ [Op.serviceCreate c.Namespace (rgwService d c ci)], ?_, ?_⟩
        · simp [hops]
        · intro op hop
          rcases List.mem_append.1 hop with h | h
          · exact hdel op h
          · simp at h; subst h; rfl
      | none =>
        refine ⟨ops ++ [Op.serviceCreate c.Namespace (rgwService d c ci),
          Op.deploymentCreate c.Namespace (makeDeployment d c ci)], ?_, ?_⟩
        · simp [hops]
        · intro op hop
          rcases List.mem_append.1 hop with h | h
          · exact hdel op h
          · simp at h
            rcases h with h | h <;> subst h <;> rfl

theorem Start_steps_in_order_witness :
    Start (serviceOutageClientset outageError) healthyCeph sampleDeps sampleCluster
        (some sampleInfo) startWorld
      = (some (Errorf "failed to start rgw service. "
            (Errorf "failed to create mon service. " outageError)),
         { kube := (Store.secretCreate "rook"
              (keyringSecret sampleDeps sampleCluster "AQBkeyring==") emptyStore).2,
           ceph := [],
           log := [Op.secretGet "rook" "rgw",
               Op.connect { ConfigDir := "/var/lib/rook" } 0 (some sampleInfo),
               Op.createKeyring 0,
               Op.secretCreate "rook" (keyringSecret sampleDeps sampleCluster "AQBkeyring=="),
               Op.shutdown 0]
             ++ [Op.serviceCreate "rook" (rgwService sampleDeps sampleCluster sampleInfo)] }) :=
  (Start_steps_in_order (serviceOutageClientset outageError) healthyCeph sampleDeps
    sampleCluster sampleInfo startWorld _ _ _ (by decide) rfl rfl rfl).2.2.1
    outageError rfl rfl rfl

/-- C1 (the code at the failing input): a concurrent caller saves the secret
"rgw" between this caller's lookup and its create, so the lookup answers
NotFound and the create answers AlreadyExists. `createKeyring` returns the error
"failed to save rgw secrets. ..." built from an error that `IsAlreadyExists`
recognises, and `Start` fails at the credential step, although the secret is in
the store. -/
theorem createKeyring_lost_race_is_error :
    IsAlreadyExists (alreadyExistsError "rgw") = true
      ∧ (Store.secretGet "rook" "rgw" emptyStore).1 = Except.error (notFoundError "rgw")
      ∧ ((racingClientset rivalSecret).secretCreate "rook"
            (keyringSecret sampleDeps sampleCluster "AQBkeyring==") emptyStore).1
          = Except.error (alreadyExistsError "rgw")
      ∧ (createKeyring (racingClientset rivalSecret) healthyCeph sampleDeps sampleCluster
            (some sampleInfo) startWorld).1
          = some (Errorf "failed to save rgw secrets. " (alreadyExistsError "rgw"))
      ∧ (Start (racingClientset rivalSecret) healthyCeph sampleDeps sampleCluster
            (some sampleInfo) startWorld).1
          = some (Errorf "failed to create rgw keyring. "
              (Errorf "failed to save rgw secrets. " (alreadyExistsError "rgw")))
      ∧ (Start (racingClientset rivalSecret) healthyCeph sampleDeps sampleCluster
            (some sampleInfo) startWorld).2.kube.findSecret "rook" "rgw" = some rivalSecret := by
  refine ⟨rfl, rfl, rfl, rfl, rfl, rfl⟩

/-- C8: for a `Cluster` built by `New` the container command is
`["/bin/sh", "-c", "sleep 5; /usr/bin/rookd rgw --data-dir=D --mon-endpoints=M
--cluster-name=N --rgw-port=P --rgw-host=H"]` with `D` the `dataDir` of the
cluster, `M` the flattened monitors, `N` the cluster name, `P` the RGW port in
decimal and `H` the DNS name; the namespace, version and connection factory
given to `New` do not enter the command; and for every `Cluster` the deployment
of `makeDeployment` carries exactly this container and has the replica count
`Replicas` of the cluster. -/
theorem rgwContainer_command (d : Deps) (ns version : String) (factory : ConnectionFactory)
    (ci : ClusterInfo) :
    (rgwContainer d (New d ns version factory) ci).Command
        = ["/bin/sh", "-c",
            "sleep 5; /usr/bin/rookd rgw --data-dir=" ++ (New d ns version factory).dataDir
              ++ " --mon-endpoints=" ++ d.FlattenMonEndpoints ci.Monitors
              ++ " --cluster-name=" ++ ci.Name
              ++ " --rgw-port=" ++ toString d.RGWPort
              ++ " --rgw-host=" ++ d.DNSName]
      ∧ (∀ ns2 version2 factory2,
          (rgwContainer d (New d ns2 version2 factory2) ci).Command
            = (rgwContainer d (New d ns version factory) ci).Command)
      ∧ (∀ c : Cluster,
          (makeDeployment d c ci).Spec.Template.Spec.Containers = [rgwContainer d c ci]
            ∧ (makeDeployment d c ci).Spec.Replicas = some c.Replicas)
      ∧ (New d ns version factory).Replicas = 2 := by
  refine ⟨?_, fun _ _ _ => rfl, fun _ => ⟨rfl, rfl⟩, rfl⟩
  have hlit : "sleep 5; " ++ "/usr/bin/rookd rgw --data-dir="
      = "sleep 5; /usr/bin/rookd rgw --data-dir=" := by decide
  simp only [rgwContainer, rgwCommand, New, ← hlit, String.append_assoc]

/-- C9: the service that `startService` submits is `rgwService`, submitted in
the namespace of the cluster by a single create call. Its selector is the two
labels app label ↦ "rgw" and cluster label ↦ cluster name, under two different
keys; it is the label set `makeDeployment` puts on the pod template for the
same `ClusterInfo`; and the service publishes the one port `RGWPort`, with the
target port `RGWPort`. -/
theorem startService_selector (cs : Clientset σ) (d : Deps) (c : Cluster) (ci : ClusterInfo)
    (w : World σ κ) (hkeys : d.AppAttr ≠ d.ClusterAttr) :
    (startService cs d c ci w).2.log
        = w.log ++ [Op.serviceCreate c.Namespace (rgwService d c ci)]
      ∧ (rgwService d c ci).Spec.Selector = [(d.AppAttr, "rgw"), (d.ClusterAttr, ci.Name)]
      ∧ ((rgwService d c ci).Spec.Selector.map Prod.fst).Nodup
      ∧ (rgwService d c ci).Spec.Selector
          = (makeDeployment d c ci).Spec.Template.ObjectMeta.Labels
      ∧ (rgwService d c ci).Spec.Ports
          = [{ Name := "rgw", Port := d.RGWPort, TargetPort := IntOrString.int d.RGWPort,
               Protocol := "TCP" }] := by
  refine ⟨by rw [startService_eq], rfl, ?_, rfl, rfl⟩
  simp [rgwService, getLabels, hkeys]

theorem startService_selector_witness :
    (rgwService sampleDeps sampleCluster sampleInfo).Spec.Selector
        = [("app", "rgw"), ("rook_cluster", "rookcluster")]
      ∧ (rgwService sampleDeps sampleCluster sampleInfo).Spec.Selector
          = (makeDeployment sampleDeps sampleCluster sampleInfo).Spec.Template.ObjectMeta.Labels :=
  ⟨(startService_selector atomicClientset sampleDeps sampleCluster sampleInfo startWorld
      (by decide)).2.1,
   (startService_selector atomicClientset sampleDeps sampleCluster sampleInfo startWorld
      (by decide)).2.2.2.1⟩

/-- C3: over the store with atomic get/create semantics, from every store in
which no two resources of a kind share namespace and name, and for every
storage cluster: if a first `Start` returns success (which needs a membership
with at least one monitor), a second `Start` with the same cluster and
membership, run in the world the first one left, returns success too and leaves
the store exactly as the first call left it; that store holds exactly one
secret, one service and one deployment named "rgw" in the namespace. The second
call issues one lookup and two creates, and no call on the storage cluster. -/
theorem Start_idempotent (ca : CephAdmin κ) (d : Deps) (c : Cluster) (ci : ClusterInfo)
    (w first second : World Store κ)
    (hU : w.kube.Unique)
    (h1 : Start atomicClientset ca d c (some ci) w = (none, first))
    (h2 : (Start atomicClientset ca d c (some ci) first).2 = second) :
    (Start atomicClientset ca d c (some ci) first).1 = none
      ∧ second.kube = first.kube
      ∧ first.kube.countSecrets c.Namespace "rgw" = 1
      ∧ first.kube.countServices c.Namespace "rgw" = 1
      ∧ first.kube.countDeployments c.Namespace "rgw" = 1
      ∧ second.ceph = first.ceph
      ∧ second.log = first.log ++ [Op.secretGet c.Namespace "rgw",
          Op.serviceCreate c.Namespace (rgwService d c ci),
          Op.deploymentCreate c.Namespace (makeDeployment d c ci)] := by
  have hm : ci.Monitors ≠ [] := by
    intro hnil
    have : Start atomicClientset ca d c (some ci) w
        = (some (ErrorfPlain "missing mons to start rgw"), w) := by
      simp [Start, hnil]
    rw [this] at h1
    cases h1
  have hS := Start_of_mons atomicClientset ca d c ci w hm
  have hk : (createKeyring atomicClientset ca d c (some ci) w).1 = none := by
    cases hkv : (createKeyring atomicClientset ca d c (some ci) w).1 with
    | none => rfl
    | some e =>
      rw [hS, hkv] at h1
      cases h1
  obtain ⟨ks1, ks2, ks3, ks4⟩ :=
    createKeyring_store_success atomicClientset ca d c (some ci) w rfl rfl hk
  obtain ⟨se1, se2, se3, se4, se5⟩ := serviceCreate_effect
    (createKeyring atomicClientset ca d c (some ci) w).2.kube c.Namespace (rgwService d c ci)
  obtain ⟨de1, de2, de3, de4, de5⟩ := deploymentCreate_effect
    (Store.serviceCreate c.Namespace (rgwService d c ci)
      (createKeyring atomicClientset ca d c (some ci) w).2.kube).2
    c.Namespace (makeDeployment d c ci)
  have hfirst := Start_of_benign_creates atomicClientset ca d c ci w hm hk se1 de1
  rw [hfirst] at h1
  have hw : first = _ := (congrArg Prod.snd h1).symm
  simp only [atomicClientset] at hw
  have hfk : first.kube = (Store.deploymentCreate c.Namespace (makeDeployment d c ci)
      (Store.serviceCreate c.Namespace (rgwService d c ci)
        (createKeyring atomicClientset ca d c (some ci) w).2.kube).2).2 := by
    rw [hw]
    rfl
  have p1 : (first.kube.findSecret c.Namespace appName).isSome = true := by
    simp only [Store.findSecret, hfk, de2, se2]
    exact ks1
  have p2 : (first.kube.findService c.Namespace appName).isSome = true := by
    simp only [Store.findService, hfk, de3]
    exact se4
  have p3 : (first.kube.findDeployment c.Namespace appName).isSome = true := by
    rw [hfk]
    exact de4
  have hsecond := Start_on_provisioned ca d c ci first hm p1 p2 p3
  rw [hsecond] at h2
  subst h2
  refine ⟨by rw [hsecond], rfl, ?_, ?_, ?_, rfl, rfl⟩
  · simp only [Store.countSecrets, hfk, de2, se2]
    exact ks4 hU.1
  · simp only [Store.countServices, hfk, de3]
    exact se5 (by rw [ks2]; exact hU.2.1)
  · rw [hfk]
    exact de5 (by rw [se3, ks3]; exact hU.2.2)

theorem Start_idempotent_witness :
    emptyStore.Unique
      ∧ (Start atomicClientset healthyCeph sampleDeps sampleCluster (some sampleInfo)
          startWorld).1 = none
      ∧ (Start atomicClientset healthyCeph sampleDeps sampleCluster (some sampleInfo)
          (Start atomicClientset healthyCeph sampleDeps sampleCluster (some sampleInfo)
            startWorld).2).1 = none
      ∧ (Start atomicClientset healthyCeph sampleDeps sampleCluster (some sampleInfo)
          (Start atomicClientset healthyCeph sampleDeps sampleCluster (some sampleInfo)
            startWorld).2).2.kube
          = (Start atomicClientset healthyCeph sampleDeps sampleCluster (some sampleInfo)
            startWorld).2.kube
      ∧ (Start atomicClientset healthyCeph sampleDeps sampleCluster (some sampleInfo)
            startWorld).2.kube.countSecrets "rook" "rgw" = 1 :=
  ⟨by decide, rfl,
   (Start_idempotent healthyCeph sampleDeps sampleCluster sampleInfo startWorld _ _
      (by decide) rfl rfl).1,
   (Start_idempotent healthyCeph sampleDeps sampleCluster sampleInfo startWorld _ _
      (by decide) rfl rfl).2.1,
   (Start_idempotent healthyCeph sampleDeps sampleCluster sampleInfo startWorld _ _
      (by decide) rfl rfl).2.2.1⟩

/-- C7: over the atomic store, let a first `Start` find no secret "rgw", mint
a keyring and save it, and then meet a service create that fails with an error
`e` that is not AlreadyExists and stores nothing. That `Start` returns the error
of the service step, and the secret built from the minted keyring is in the
store it leaves. A second `Start` with the same inputs, run in the world the
first one left against the store whose creates succeed again, returns success;
its calls are one lookup, the service create and the deployment create, so it
opens no administrative session and mints nothing; the storage cluster and the
stored secrets are unchanged; and afterwards the service and the deployment
"rgw" are in the store, being the ones this call built whenever none was there
before. -/
theorem Start_resumes_after_service_failure (ca : CephAdmin κ) (d : Deps) (c : Cluster)
    (ci : ClusterInfo) (w first second : World Store κ) (e : GoError)
    (hm : ci.Monitors ≠ [])
    (habsent : w.kube.findSecret c.Namespace "rgw" = none)
    (he : IsAlreadyExists e = false)
    (hk : (createKeyring (serviceOutageClientset e) ca d c (some ci) w).1 = none)
    (h1 : (Start (serviceOutageClientset e) ca d c (some ci) w).2 = first)
    (h2 : (Start atomicClientset ca d c (some ci) first).2 = second) :
    (Start (serviceOutageClientset e) ca d c (some ci) w).1
        = some (Errorf "failed to start rgw service. "
            (Errorf "failed to create mon service. " e))
      ∧ (∃ keyring,
          first.kube.findSecret c.Namespace "rgw" = some (keyringSecret d c keyring)
            ∧ Op.secretCreate c.Namespace (keyringSecret d c keyring) ∈ first.log
            ∧ second.kube.findSecret c.Namespace "rgw" = some (keyringSecret d c keyring))
      ∧ (Start atomicClientset ca d c (some ci) first).1 = none
      ∧ second.log = first.log ++ [Op.secretGet c.Namespace "rgw",
          Op.serviceCreate c.Namespace (rgwService d c ci),
          Op.deploymentCreate c.Namespace (makeDeployment d c ci)]
      ∧ second.ceph = first.ceph
      ∧ second.kube.secrets = first.kube.secrets
      ∧ (second.kube.findService c.Namespace "rgw").isSome = true
      ∧ (second.kube.findDeployment c.Namespace "rgw").isSome = true
      ∧ (first.kube.findService c.Namespace "rgw" = none →
          second.kube.findService c.Namespace "rgw" = some (rgwService d c ci))
      ∧ (first.kube.findDeployment c.Namespace "rgw" = none →
          second.kube.findDeployment c.Namespace "rgw" = some (makeDeployment d c ci)) := by
  -- the first call
  have hS := Start_of_mons (serviceOutageClientset e) ca d c ci w hm
  simp only [startService_eq] at hS
  rw [hk] at hS
  have hfirst : Start (serviceOutageClientset e) ca d c (some ci) w
      = (some (Errorf "failed to start rgw service. "
            (Errorf "failed to create mon service. " e)),
         { kube := (createKeyring (serviceOutageClientset e) ca d c (some ci) w).2.kube,
           ceph := (createKeyring (serviceOutageClientset e) ca d c (some ci) w).2.ceph,
           log := (createKeyring (serviceOutageClientset e) ca d c (some ci) w).2.log
             ++ [Op.serviceCreate c.Namespace (rgwService d c ci)] }) := by
    rw [hS]
    simp [serviceOutageClientset, he]
  obtain ⟨keyring, hkube, hlog⟩ :=
    (createKeyring_on_store (serviceOutageClientset e) ca d c (some ci) w rfl rfl).2
      habsent hk
  rw [hfirst] at h1
  subst h1
  have hnamed : (keyringSecret d c keyring).ObjectMeta.named c.Namespace appName = true := by
    simp [keyringSecret, ObjectMeta.named, ObjectMeta.key]
  have hsec : Store.findSecret (createKeyring (serviceOutageClientset e) ca d c (some ci)
      w).2.kube c.Namespace appName = some (keyringSecret d c keyring) := by
    rw [hkube]
    simp only [Store.findSecret]
    exact find_append_of_none _ _ _ habsent hnamed
  -- the second call
  have hk2 := (createKeyring_on_store atomicClientset ca d c (some ci)
    { kube := (createKeyring (serviceOutageClientset e) ca d c (some ci) w).2.kube,
      ceph := (createKeyring (serviceOutageClientset e) ca d c (some ci) w).2.ceph,
      log := (createKeyring (serviceOutageClientset e) ca d c (some ci) w).2.log
        ++ [Op.serviceCreate c.Namespace (rgwService d c ci)] } rfl rfl).1
    (keyringSecret d c keyring) hsec
  obtain ⟨se1, se2, se3, se4, _⟩ := serviceCreate_effect
    (createKeyring (serviceOutageClientset e) ca d c (some ci) w).2.kube
    c.Namespace (rgwService d c ci)
  obtain ⟨de1, de2, de3, de4, _⟩ := deploymentCreate_effect
    (Store.serviceCreate c.Namespace (rgwService d c ci)
      (createKeyring (serviceOutageClientset e) ca d c (some ci) w).2.kube).2
    c.Namespace (makeDeployment d c ci)
  have hsecond := Start_of_benign_creates atomicClientset ca d c ci
    { kube := (createKeyring (serviceOutageClientset e) ca d c (some ci) w).2.kube,
      ceph := (createKeyring (serviceOutageClientset e) ca d c (some ci) w).2.ceph,
      log := (createKeyring (serviceOutageClientset e) ca d c (some ci) w).2.log
        ++ [Op.serviceCreate c.Namespace (rgwService d c ci)] } hm
    (by rw [hk2])
    (by rw [hk2]; exact se1)
    (by rw [hk2]; exact de1)
  rw [hk2] at hsecond
  have a1 : atomicClientset.serviceCreate = Store.serviceCreate := rfl
  have a2 : atomicClientset.deploymentCreate = Store.deploymentCreate := rfl
  rw [a1, a2] at hsecond
  rw [hsecond] at h2
  subst h2
  refine ⟨by rw [hfirst], ⟨keyring, hsec, ?_, ?_⟩, by rw [hsecond], ?_, rfl, ?_, ?_, ?_, ?_, ?_⟩
  · exact List.mem_append_left _ hlog
  · simp only [Store.findSecret, de2, se2]
    exact hsec
  · simp [appName]
  · simp only [de2, se2]
  · simp only [Store.findService, de3]
    exact se4
  · exact de4
  · intro hnone
    have hnone2 : Store.findService
        (createKeyring (serviceOutageClientset e) ca d c (some ci) w).2.kube c.Namespace
        (rgwService d c ci).ObjectMeta.Name = none := hnone
    simp only [Store.findService, de3]
    rw [serviceCreate_of_absent _ _ _ hnone2]
    exact find_append_of_none _ _ _ hnone (named_inNamespace c.Namespace _)
  · intro hnone
    have hnone2 : Store.findDeployment
        (Store.serviceCreate c.Namespace (rgwService d c ci)
          (createKeyring (serviceOutageClientset e) ca d c (some ci) w).2.kube).2 c.Namespace
        (makeDeployment d c ci).ObjectMeta.Name = none := by
      simp only [Store.findDeployment, se3]
      exact hnone
    rw [deploymentCreate_of_absent _ _ _ hnone2]
    exact find_append_of_none _ _ _ hnone2 (named_inNamespace c.Namespace _)

theorem Start_resumes_after_service_failure_witness :
    (Start (serviceOutageClientset outageError) healthyCeph sampleDeps sampleCluster
        (some sampleInfo) startWorld).1
        = some (Errorf "failed to start rgw service. "
            (Errorf "failed to create mon service. " outageError))
      ∧ (Start atomicClientset healthyCeph sampleDeps sampleCluster (some sampleInfo)
          (Start (serviceOutageClientset outageError) healthyCeph sampleDeps sampleCluster
            (some sampleInfo) startWorld).2).1 = none :=
  ⟨(Start_resumes_after_service_failure healthyCeph sampleDeps sampleCluster sampleInfo
      startWorld _ _ outageError (by decide) rfl rfl rfl rfl rfl).1,
   (Start_resumes_after_service_failure healthyCeph sampleDeps sampleCluster sampleInfo
      startWorld _ _ outageError (by decide) rfl rfl rfl rfl rfl).2.2.1⟩

/-- C10: the first environment variable of the container is ROOKD_RGW_KEYRING;
it carries no literal value, only a reference to key "keyring" of the secret
"rgw". Whenever `createKeyring` saves a secret `s` (a create call among the
calls it issues), `s` is named "rgw", holds the keyring under the one data key
"keyring", and is created in the namespace of the deployment that
`makeDeployment` builds, which carries this container: the reference names the
secret and the key that were saved. The value saved under that key is the
keyring minted in this very call: a session `conn` was opened, `CreateKeyring`
on it returned `keyring`, and `s` is exactly the secret named "rgw" in the
namespace of the cluster with the data `keyring ↦ keyring` and the rook type,
saved by the one create call between the mint and the shutdown. -/
theorem keyring_env_refers_to_saved_secret (cs : Clientset σ) (ca : CephAdmin κ) (d : Deps)
    (c : Cluster) (cluster : Option ClusterInfo) (ci : ClusterInfo) (w : World σ κ)
    (ns : String) (s : Secret) (ops : List Op)
    (hops : (createKeyring cs ca d c cluster w).2.log = w.log ++ ops)
    (hsave : Op.secretCreate ns s ∈ ops) :
    (rgwContainer d c ci).Env.head?
        = some { Name := "ROOKD_RGW_KEYRING", Value := "",
                 ValueFrom := some { SecretKeyRef := some { Name := "rgw", Key := "keyring" } } }
      ∧ s.ObjectMeta.Name = "rgw"
      ∧ (∃ keyring, s.StringData = [("keyring", keyring)])
      ∧ ns = (makeDeployment d c ci).ObjectMeta.Namespace
      ∧ s.ObjectMeta.Namespace = (makeDeployment d c ci).ObjectMeta.Namespace
      ∧ (makeDeployment d c ci).Spec.Template.Spec.Containers = [rgwContainer d c ci]
      ∧ (∃ conn keyring,
          (ca.connect { ConfigDir := c.dataDir } c.factory cluster w.ceph).1 = Except.ok conn
            ∧ (ca.createKeyring conn
                (ca.connect { ConfigDir := c.dataDir } c.factory cluster w.ceph).2).1
                  = Except.ok keyring
            ∧ s = { ObjectMeta := { Name := "rgw", Namespace := c.Namespace },
                    StringData := [("keyring", keyring)],
                    Type_ := d.RookType }
            ∧ ops = [Op.secretGet c.Namespace "rgw",
                Op.connect { ConfigDir := c.dataDir } c.factory cluster,
                Op.createKeyring conn,
                Op.secretCreate c.Namespace s,
                Op.shutdown conn]) := by
  have hminted : ∃ conn keyring,
      (ca.connect { ConfigDir := c.dataDir } c.factory cluster w.ceph).1 = Except.ok conn
        ∧ (ca.createKeyring conn
            (ca.connect { ConfigDir := c.dataDir } c.factory cluster w.ceph).2).1
              = Except.ok keyring
        ∧ ns = c.Namespace
        ∧ s = keyringSecret d c keyring
        ∧ ops = [Op.secretGet c.Namespace appName,
            Op.connect { ConfigDir := c.dataDir } c.factory cluster,
            Op.createKeyring conn,
            Op.secretCreate c.Namespace (keyringSecret d c keyring),
            Op.shutdown conn] := by
    cases hg : (cs.secretGet c.Namespace appName w.kube).1 with
    | ok found =>
      rw [createKeyring_of_found cs ca d c cluster w found hg] at hops
      have hl : ops = [Op.secretGet c.Namespace appName] :=
        (List.append_cancel_left hops).symm
      subst hl
      simp at hsave
    | error err =>
      cases hnf : IsNotFound err with
      | false =>
        rw [createKeyring_of_get_failed cs ca d c cluster w err hg hnf] at hops
        have hl : ops = [Op.secretGet c.Namespace appName] :=
          (List.append_cancel_left hops).symm
        subst hl
        simp at hsave
      | true =>
        cases hconn : (ca.connect { ConfigDir := c.dataDir } c.factory cluster w.ceph).1 with
        | error e =>
          rw [createKeyring_of_connect_failed cs ca d c cluster w err e hg hnf hconn] at hops
          have hl := (List.append_cancel_left hops).symm
          subst hl
          simp at hsave
        | ok conn =>
          cases hmint : (ca.createKeyring conn
              (ca.connect { ConfigDir := c.dataDir } c.factory cluster w.ceph).2).1 with
          | error e =>
            rw [createKeyring_of_mint_failed cs ca d c cluster w err e conn hg hnf hconn hmint]
              at hops
            have hl := (List.append_cancel_left hops).symm
            subst hl
            simp at hsave
          | ok keyring =>
            rw [createKeyring_of_minted cs ca d c cluster w err conn keyring hg hnf hconn
              hmint] at hops
            have hl := (List.append_cancel_left hops).symm
            subst hl
            simp at hsave
            exact ⟨conn, keyring, rfl, hmint, hsave.1, hsave.2, rfl⟩
  obtain ⟨conn, keyring, h1, h2, hns, hs, hl⟩ := hminted
  subst hns hs
  exact ⟨rfl, rfl, ⟨keyring, rfl⟩, rfl, rfl, rfl, conn, keyring, h1, h2, rfl, hl⟩

theorem keyring_env_refers_to_saved_secret_witness :
    Op.secretCreate "rook" (keyringSecret sampleDeps sampleCluster "AQBkeyring==")
        ∈ (createKeyring atomicClientset healthyCeph sampleDeps sampleCluster (some sampleInfo)
            startWorld).2.log
      ∧ (rgwContainer sampleDeps sampleCluster sampleInfo).Env.head?
          = some { Name := "ROOKD_RGW_KEYRING", Value := "",
                   ValueFrom := some { SecretKeyRef := some { Name := "rgw", Key := "keyring" } } }
      ∧ (keyringSecret sampleDeps sampleCluster "AQBkeyring==").ObjectMeta.Name = "rgw"
      ∧ (∃ conn keyring,
          (healthyCeph.connect { ConfigDir := "/var/lib/rook" } 0 (some sampleInfo) []).1
              = Except.ok conn
            ∧ (healthyCeph.createKeyring conn
                (healthyCeph.connect { ConfigDir := "/var/lib/rook" } 0 (some sampleInfo)
                  []).2).1 = Except.ok keyring
            ∧ keyringSecret sampleDeps sampleCluster "AQBkeyring=="
                = { ObjectMeta := { Name := "rgw", Namespace := "rook" },
                    StringData := [("keyring", keyring)],
                    Type_ := "kubernetes.io/rook" }) :=
  ⟨by decide,
   (keyring_env_refers_to_saved_secret atomicClientset healthyCeph sampleDeps sampleCluster
      (some sampleInfo) sampleInfo startWorld "rook"
      (keyringSecret sampleDeps sampleCluster "AQBkeyring==")
      [Op.secretGet "rook" "rgw",
        Op.connect { ConfigDir := "/var/lib/rook" } 0 (some sampleInfo),
        Op.createKeyring 0,
        Op.secretCreate "rook" (keyringSecret sampleDeps sampleCluster "AQBkeyring=="),
        Op.shutdown 0]
      rfl (by decide)).1,
   (keyring_env_refers_to_saved_secret atomicClientset healthyCeph sampleDeps sampleCluster
      (some sampleInfo) sampleInfo startWorld "rook"
      (keyringSecret sampleDeps sampleCluster "AQBkeyring==")
      [Op.secretGet "rook" "rgw",
        Op.connect { ConfigDir := "/var/lib/rook" } 0 (some sampleInfo),
        Op.createKeyring 0,
        Op.secretCreate "rook" (keyringSecret sampleDeps sampleCluster "AQBkeyring=="),
        Op.shutdown 0]
      rfl (by decide)).2.1,
   (keyring_env_refers_to_saved_secret atomicClientset healthyCeph sampleDeps sampleCluster
      (some sampleInfo) sampleInfo startWorld "rook"
      (keyringSecret sampleDeps sampleCluster "AQBkeyring==")
      [Op.secretGet "rook" "rgw",
        Op.connect { ConfigDir := "/var/lib/rook" } 0 (some sampleInfo),
        Op.createKeyring 0,
        Op.secretCreate "rook" (keyringSecret sampleDeps sampleCluster "AQBkeyring=="),
        Op.shutdown 0]
      rfl (by decide)).2.2.2.2.2.2.elim
     (fun conn h => h.elim (fun keyring hk => ⟨conn, keyring, hk.1, hk.2.1, hk.2.2.1⟩))⟩

end Claims

end Rgw
